import Mathlib

/-!
Verification of the provider-dispatch layer of `src/server.ts`.

The program is a single Express server exposing three routes
(`POST /api/text`, `POST /api/image`, `POST /api/pdf`).  Each route
validates its input, resolves one of three AI providers
(`google`, `openai`, `deepseek`) from an optional string, invokes a
provider-specific processing function, and answers with a JSON body
holding either a `response` string (status 200), a validation `error`
(status 400) or the generic `error` "Internal server error" (status 500).

The shallow embedding below mirrors the TypeScript source.  Backend
network calls (Google GenAI streams, OpenAI/DeepSeek chat completions)
are modelled by a `Backends` record: each call either faults (carrying
an opaque cause string, the thrown error) or yields its data — a list
of streamed text fragments for the Google streaming API, or an optional
message content for the OpenAI-style APIs (`content` may be null).
-/

namespace KiShowcase

/-- The literal provider tags of `type AIProvider = 'google' | 'openai' | 'deepseek'`. -/
inductive Provider where
  | google
  | openai
  | deepseek
deriving DecidableEq, Repr

/-- The string tag of a provider, as it appears in request bodies and in
the template literal of the PDF route. -/
def Provider.name : Provider → String
  | .google => "google"
  | .openai => "openai"
  | .deepseek => "deepseek"

/-- Provider resolution: `const { provider = 'google' } = req.body` followed by
`switch (provider) { case 'openai': ...; case 'deepseek': ...; case 'google': default: ... }`.
An absent provider defaults to the string `'google'`; the switch sends
`'openai'` and `'deepseek'` to their branches and everything else to the
`default` branch, i.e. to Google. -/
def resolveProvider (provider : Option String) : Provider :=
  match provider with
  | none => .google
  | some s => if s = "openai" then .openai else if s = "deepseek" then .deepseek else .google

/-- The backend world: every network call the routes can make.  A call
either throws (modelled as `.error cause`) or returns its payload. -/
structure Backends where
  /-- `googleAI.models.generateContentStream` for a text request: the stream
  of `chunk.text` fragments, in delivery order. -/
  googleTextStream : String → Except String (List String)
  /-- `openAI.chat.completions.create` for text: `choices[0]?.message?.content`. -/
  openaiText : String → Except String (Option String)
  /-- `deepseekAI.chat.completions.create` for text. -/
  deepseekText : String → Except String (Option String)
  /-- Google stream for an image request (base64 data, MIME type, question). -/
  googleImageStream : String → String → String → Except String (List String)
  /-- OpenAI chat completion for an image request. -/
  openaiImage : String → String → String → Except String (Option String)
  /-- Google stream for a PDF request (base64 data, question); the MIME type
  is hardcoded to `application/pdf` at the call site. -/
  googlePdfStream : String → String → Except String (List String)

/-- `let result = ''; for await (const chunk of response) { result += chunk.text }`:
left fold of string append over the delivered fragments, starting empty. -/
def accumulate (chunks : List String) : String :=
  chunks.foldl (fun acc c => acc ++ c) ""

/-- `JSON.stringify({ error: msg })` for a plain message without escapes. -/
def jsonStringifyError (msg : String) : String :=
  "\x7b\"error\":\"" ++ msg ++ "\"\x7d"

/-- `processTextWithGoogle`: stream the model output and accumulate it. -/
def processTextWithGoogle (b : Backends) (text : String) : Except String String :=
  (b.googleTextStream text).map accumulate

/-- `processTextWithOpenAI`: `response.choices[0]?.message?.content || ''`. -/
def processTextWithOpenAI (b : Backends) (text : String) : Except String String :=
  (b.openaiText text).map (fun content => content.getD "")

/-- `processTextWithDeepSeek`: same shape as the OpenAI text call. -/
def processTextWithDeepSeek (b : Backends) (text : String) : Except String String :=
  (b.deepseekText text).map (fun content => content.getD "")

/-- `processImageWithGoogle`: stream with inline image data and accumulate. -/
def processImageWithGoogle (b : Backends) (base64Data mimeType question : String) :
    Except String String :=
  (b.googleImageStream base64Data mimeType question).map accumulate

/-- `processImageWithOpenAI`: chat completion with an image_url part. -/
def processImageWithOpenAI (b : Backends) (base64Data mimeType question : String) :
    Except String String :=
  (b.openaiImage base64Data mimeType question).map (fun content => content.getD "")

/-- `processImageWithDeepSeek`: DeepSeek has no vision support; the function
performs no backend call and returns the capability-gap payload. -/
def processImageWithDeepSeek (base64Data mimeType question : String) :
    Except String String :=
  .ok (jsonStringifyError "DeepSeek does not currently support image analysis")

/-- The HTTP reply of a route: status code, `response` field, `error` field. -/
structure ApiResponse where
  status : Nat
  response : Option String
  error : Option String
deriving DecidableEq, Repr

/-- An uploaded multipart file as multer delivers it: raw bytes and MIME type. -/
structure UploadedFile where
  buffer : List Nat
  mimetype : String
deriving DecidableEq, Repr

/-- The base64 alphabet used by `Buffer.toString('base64')`. -/
def base64Chars : List Char :=
  "ABCDEFGHIJKLMNOPQRSTUVWXYZabcdefghijklmnopqrstuvwxyz0123456789+/".toList

/-- The base64 digit for a 6-bit value. -/
def base64Digit (n : Nat) : Char :=
  base64Chars.getD n 'A'

/-- `file.buffer.toString('base64')`: standard base64 with padding. -/
def base64Encode : List Nat → String
  | [] => ""
  | [b1] =>
      String.mk [base64Digit (b1 / 4 % 64), base64Digit (b1 % 4 * 16), '=', '=']
  | [b1, b2] =>
      String.mk [base64Digit (b1 / 4 % 64), base64Digit (b1 % 4 * 16 + b2 / 16 % 16),
        base64Digit (b2 % 16 * 4), '=']
  | b1 :: b2 :: b3 :: rest =>
      String.mk [base64Digit (b1 / 4 % 64), base64Digit (b1 % 4 * 16 + b2 / 16 % 16),
        base64Digit (b2 % 16 * 4 + b3 / 64 % 4), base64Digit (b3 % 64)] ++
      base64Encode rest

/-- JavaScript `s.startsWith(pre)`: `pre` is a prefix of the character
sequence of `s`. -/
def strStartsWith (s pre : String) : Bool :=
  List.isPrefixOf pre.data s.data

/-- JavaScript `a || b` on an optional string field: `undefined`, `null`
and the empty string are falsy, so all three select `b`. -/
def jsOrElse (a : Option String) (b : String) : String :=
  match a with
  | none => b
  | some s => if s = "" then b else s

/-- The default image prompt substituted when `question` is falsy. -/
def imageDefaultPrompt : String := "What are you seeing in this picture?"

/-- The default PDF prompt substituted when `question` is falsy. -/
def pdfDefaultPrompt : String := "What are you seeing in this PDF?"

/-- `res.json({ response: result })` on success of the provider call,
`res.status(500).json({ error: 'Internal server error' })` when the awaited
call throws (the route catch block; the cause is only passed to `console.error`). -/
def respond (result : Except String String) : ApiResponse :=
  match result with
  | .ok r => ⟨200, some r, none⟩
  | .error _ => ⟨500, none, some "Internal server error"⟩

/-- The provider switch of `POST /api/text`. -/
def textSwitch (b : Backends) (p : Provider) (text : String) : Except String String :=
  match p with
  | .openai => processTextWithOpenAI b text
  | .deepseek => processTextWithDeepSeek b text
  | .google => processTextWithGoogle b text

/-- The `POST /api/text` handler: `if (!text)` yields a 400, otherwise the
provider switch runs and the result (or catch) is sent. -/
def postText (b : Backends) (text : Option String) (provider : Option String) :
    ApiResponse :=
  match text with
  | none => ⟨400, none, some "Text is required"⟩
  | some t =>
    if t = "" then ⟨400, none, some "Text is required"⟩
    else respond (textSwitch b (resolveProvider provider) t)

/-- The provider switch of `POST /api/image`. -/
def imageSwitch (b : Backends) (p : Provider) (base64Data mimetype questionText : String) :
    Except String String :=
  match p with
  | .openai => processImageWithOpenAI b base64Data mimetype questionText
  | .deepseek => processImageWithDeepSeek base64Data mimetype questionText
  | .google => processImageWithGoogle b base64Data mimetype questionText

/-- The `POST /api/image` handler: missing file and non-`image/` MIME types
yield 400; otherwise `questionText = question || default` and the provider
switch runs on the base64-encoded buffer. -/
def postImage (b : Backends) (file : Option UploadedFile) (question : Option String)
    (provider : Option String) : ApiResponse :=
  match file with
  | none => ⟨400, none, some "Image file is required"⟩
  | some f =>
    if strStartsWith f.mimetype "image/" then
      respond (imageSwitch b (resolveProvider provider) (base64Encode f.buffer)
        f.mimetype (jsOrElse question imageDefaultPrompt))
    else ⟨400, none, some "File must be an image"⟩

/-- The provider switch of `POST /api/pdf`: the `openai` and `deepseek` cases
share one branch producing ``JSON.stringify({ error: `${provider} does not
currently support PDF analysis` })``; the `google`/default branch streams. -/
def pdfSwitch (b : Backends) (p : Provider) (base64Data questionText : String) :
    Except String String :=
  match p with
  | .openai | .deepseek =>
      .ok (jsonStringifyError (p.name ++ " does not currently support PDF analysis"))
  | .google => (b.googlePdfStream base64Data questionText).map accumulate

/-- The `POST /api/pdf` handler: missing file and MIME types other than
exactly `application/pdf` yield 400; otherwise the provider switch runs. -/
def postPdf (b : Backends) (file : Option UploadedFile) (question : Option String)
    (provider : Option String) : ApiResponse :=
  match file with
  | none => ⟨400, none, some "PDF file is required"⟩
  | some f =>
    if f.mimetype = "application/pdf" then
      respond (pdfSwitch b (resolveProvider provider) (base64Encode f.buffer)
        (jsOrElse question pdfDefaultPrompt))
    else ⟨400, none, some "File must be a PDF"⟩

/-- A concrete backend world where every call succeeds, used to evaluate
the route handlers on concrete requests. -/
def demoBackends : Backends where
  googleTextStream := fun _ => .ok ["Hel", "lo"]
  openaiText := fun _ => .ok (some "openai says hi")
  deepseekText := fun _ => .ok (some "deepseek says hi")
  googleImageStream := fun _ _ q => .ok ["image seen, asked: ", q]
  openaiImage := fun _ _ q => .ok (some q)
  googlePdfStream := fun _ q => .ok ["pdf seen, asked: ", q]

/-- A concrete backend world where every call throws, used to evaluate
the catch paths of the route handlers. -/
def faultyBackends : Backends where
  googleTextStream := fun _ => .error "ECONNREFUSED api.google.invalid"
  openaiText := fun _ => .error "401 invalid api key"
  deepseekText := fun _ => .error "401 invalid api key"
  googleImageStream := fun _ _ _ => .error "ECONNREFUSED api.google.invalid"
  openaiImage := fun _ _ _ => .error "401 invalid api key"
  googlePdfStream := fun _ _ => .error "ECONNREFUSED api.google.invalid"

/-- Folding string append from any accumulator factors through `accumulate`. -/
theorem foldl_append_eq (chunks : List String) :
    ∀ a : String, chunks.foldl (fun acc c => acc ++ c) a = a ++ accumulate chunks := by
  induction chunks with
  | nil => intro a; simp [accumulate]
  | cons c cs ih =>
      intro a
      show cs.foldl (fun acc c => acc ++ c) (a ++ c) = a ++ accumulate (c :: cs)
      rw [ih (a ++ c)]
      show a ++ c ++ accumulate cs = a ++ List.foldl (fun acc c => acc ++ c) ("" ++ c) cs
      rw [ih ("" ++ c), String.empty_append, String.append_assoc]

/-- Claim C1: for every non-empty text input, dispatching with an unrecognized
provider string behaves identically to dispatching with the provider omitted —
both resolve to the default provider `google`, resolution is total (it is a
Lean function, so it never fails), and the `/api/text` handler produces the
same response either way, over every backend world. -/
theorem unknown_provider_behaves_as_default (b : Backends) (t s : String)
    (ht : t ≠ "") (h1 : s ≠ "openai") (h2 : s ≠ "deepseek") :
    resolveProvider (some s) = Provider.google ∧
    resolveProvider none = Provider.google ∧
    postText b (some t) (some s) = postText b (some t) none := by
  refine ⟨?_, rfl, ?_⟩
  · simp [resolveProvider, h1, h2]
  · simp [postText, resolveProvider, h1, h2, ht]

/-- Witness for C1 at the spec's own example inputs. -/
theorem unknown_provider_behaves_as_default_witness :
    resolveProvider (some "unknown-id") = Provider.google ∧
    resolveProvider none = Provider.google ∧
    postText demoBackends (some "hello") (some "unknown-id") =
      postText demoBackends (some "hello") none :=
  unknown_provider_behaves_as_default demoBackends "hello" "unknown-id"
    (by decide) (by decide) (by decide)

/-- Claim C2: for DeepSeek (the provider lacking image support), `/api/image`
with a present file whose MIME type starts with `image/` answers through the
success path, status 200, with the capability-gap payload naming DeepSeek and
the image modality — never the 400 validation reply nor the 500 upstream
reply, for every backend world, question and file contents. -/
theorem deepseek_image_capability_gap (b : Backends) (f : UploadedFile)
    (q : Option String) (hmime : strStartsWith f.mimetype "image/" = true) :
    postImage b (some f) q (some "deepseek") =
      ⟨200, some "\x7b\"error\":\"DeepSeek does not currently support image analysis\"\x7d",
        none⟩ := by
  simp [postImage, hmime, resolveProvider, imageSwitch, processImageWithDeepSeek,
    respond, jsonStringifyError]

/-- Witness for C2 on a concrete PNG upload with no question. -/
theorem deepseek_image_capability_gap_witness :
    postImage demoBackends (some ⟨[137, 80, 78, 71], "image/png"⟩) none (some "deepseek") =
      ⟨200, some "\x7b\"error\":\"DeepSeek does not currently support image analysis\"\x7d",
        none⟩ :=
  deepseek_image_capability_gap demoBackends ⟨[137, 80, 78, 71], "image/png"⟩ none
    (by decide)

/-- Claim C3: for each of the two providers lacking document support
(`openai` and `deepseek`), `/api/pdf` with a present file of MIME type exactly
`application/pdf` answers through the success path, status 200, with the
capability-gap payload naming that specific provider and the PDF modality,
for every backend world, question and file contents. -/
theorem pdf_capability_gap (b : Backends) (f : UploadedFile) (q : Option String)
    (p : Provider) (hmime : f.mimetype = "application/pdf")
    (hp : p = Provider.openai ∨ p = Provider.deepseek) :
    postPdf b (some f) q (some p.name) =
      ⟨200, some (jsonStringifyError (p.name ++ " does not currently support PDF analysis")),
        none⟩ := by
  rcases hp with hp | hp <;> subst hp <;>
    simp [postPdf, hmime, resolveProvider, Provider.name, pdfSwitch, respond]

/-- Witness for C3: both document-incapable providers at a concrete PDF upload. -/
theorem pdf_capability_gap_witness :
    postPdf demoBackends (some ⟨[37, 80, 68, 70], "application/pdf"⟩) none
        (some "openai") =
      ⟨200, some "\x7b\"error\":\"openai does not currently support PDF analysis\"\x7d",
        none⟩ ∧
    postPdf demoBackends (some ⟨[37, 80, 68, 70], "application/pdf"⟩) none
        (some "deepseek") =
      ⟨200, some "\x7b\"error\":\"deepseek does not currently support PDF analysis\"\x7d",
        none⟩ := by
  constructor
  · have h := pdf_capability_gap demoBackends ⟨[37, 80, 68, 70], "application/pdf"⟩
      none Provider.openai (by decide) (Or.inl rfl)
    simpa [Provider.name, jsonStringifyError] using h
  · have h := pdf_capability_gap demoBackends ⟨[37, 80, 68, 70], "application/pdf"⟩
      none Provider.deepseek (by decide) (Or.inr rfl)
    simpa [Provider.name, jsonStringifyError] using h

/-- Claim C4: `/api/text` answers with the validation error exactly when the
text is absent or empty: absent and empty text always give status 400 with
`Text is required`, for every provider; and for non-empty text the handler
never gives status 400, and whenever the selected provider call returns a
string the handler answers 200 with that (non-null) string. -/
theorem text_validation_iff_empty (b : Backends) (p : Option String) :
    postText b none p = ⟨400, none, some "Text is required"⟩ ∧
    postText b (some "") p = ⟨400, none, some "Text is required"⟩ ∧
    ∀ t : String, t ≠ "" →
      (postText b (some t) p).status ≠ 400 ∧
      ∀ r : String, textSwitch b (resolveProvider p) t = .ok r →
        postText b (some t) p = ⟨200, some r, none⟩ := by
  refine ⟨rfl, rfl, fun t ht => ⟨?_, fun r hr => ?_⟩⟩
  · simp only [postText, if_neg ht]
    cases h : textSwitch b (resolveProvider p) t <;> simp [respond, h]
  · simp [postText, ht, hr, respond]

/-- Witness for C4 at a concrete non-empty input. -/
theorem text_validation_iff_empty_witness :
    (postText demoBackends (some "hello") none).status ≠ 400 ∧
    postText demoBackends (some "hello") none = ⟨200, some "Hello", none⟩ := by
  have h := (text_validation_iff_empty demoBackends none).2.2 "hello" (by decide)
  exact ⟨h.1, h.2 "Hello" rfl⟩

/-- Claim C5: `/api/image` answers with a validation error, status 400, for
every provider and question, whenever the file is absent or its MIME type
does not start with `image/`. -/
theorem image_validation (b : Backends) (q p : Option String) :
    postImage b none q p = ⟨400, none, some "Image file is required"⟩ ∧
    ∀ f : UploadedFile, strStartsWith f.mimetype "image/" = false →
      postImage b (some f) q p = ⟨400, none, some "File must be an image"⟩ := by
  refine ⟨rfl, fun f hf => ?_⟩
  simp [postImage, hf]

/-- Witness for C5: a PDF-typed upload to the image route is rejected. -/
theorem image_validation_witness :
    postImage demoBackends (some ⟨[37, 80, 68, 70], "application/pdf"⟩) none none =
      ⟨400, none, some "File must be an image"⟩ :=
  (image_validation demoBackends none none).2 ⟨[37, 80, 68, 70], "application/pdf"⟩
    (by decide)

/-- Claim C6: `/api/pdf` answers with a validation error, status 400, for
every provider and question, whenever the file is absent or its MIME type is
any string other than exactly `application/pdf`. -/
theorem pdf_validation (b : Backends) (q p : Option String) :
    postPdf b none q p = ⟨400, none, some "PDF file is required"⟩ ∧
    ∀ f : UploadedFile, f.mimetype ≠ "application/pdf" →
      postPdf b (some f) q p = ⟨400, none, some "File must be a PDF"⟩ := by
  refine ⟨rfl, fun f hf => ?_⟩
  simp [postPdf, hf]

/-- Witness for C6: an image-typed upload to the PDF route is rejected. -/
theorem pdf_validation_witness :
    postPdf demoBackends (some ⟨[137, 80, 78, 71], "image/png"⟩) none none =
      ⟨400, none, some "File must be a PDF"⟩ :=
  (pdf_validation demoBackends none none).2 ⟨[137, 80, 78, 71], "image/png"⟩
    (by decide)

/-- Claim C7: accumulation of a streamed response is the order-preserving
concatenation of the fragments in delivery order — empty stream gives `""`,
each fragment is appended after everything delivered before it, the spec's
example `["Hel", "lo"]` gives `"Hello"` — and both streaming adapters
(`processTextWithGoogle` and the PDF route's google branch) return exactly
the accumulation of the whole delivered sequence: the stream is drained to
completion before the function returns. -/
theorem stream_accumulation (b : Backends) :
    accumulate [] = "" ∧
    (∀ (c : String) (cs : List String), accumulate (c :: cs) = c ++ accumulate cs) ∧
    accumulate ["Hel", "lo"] = "Hello" ∧
    (∀ (t : String) (chunks : List String), b.googleTextStream t = .ok chunks →
      processTextWithGoogle b t = .ok (accumulate chunks)) ∧
    (∀ (d q : String) (chunks : List String), b.googlePdfStream d q = .ok chunks →
      pdfSwitch b Provider.google d q = .ok (accumulate chunks)) := by
  refine ⟨rfl, fun c cs => ?_, by decide, fun t chunks h => ?_, fun d q chunks h => ?_⟩
  · show List.foldl (fun acc c => acc ++ c) ("" ++ c) cs = c ++ accumulate cs
    rw [foldl_append_eq cs ("" ++ c), String.empty_append]
  · simp [processTextWithGoogle, h, Except.map]
  · simp [pdfSwitch, h, Except.map]

/-- Witness for C7: the google text adapter on a backend delivering
`["Hel", "lo"]` returns exactly `"Hello"`. -/
theorem stream_accumulation_witness :
    processTextWithGoogle demoBackends "hi" = .ok (accumulate ["Hel", "lo"]) ∧
    accumulate ["Hel", "lo"] = "Hello" :=
  ⟨(stream_accumulation demoBackends).2.2.2.1 "hi" ["Hel", "lo"] rfl,
   (stream_accumulation demoBackends).2.2.1⟩

/-- Claim C8: the prompt handed to the provider switch (hence to the backend)
is the fixed modality default when the question is omitted — `"What are you
seeing in this picture?"` for images, `"What are you seeing in this PDF?"`
for PDFs — and is the supplied question itself when a non-empty question is
given, for every backend world, provider and valid file. -/
theorem default_prompt_substitution (b : Backends) (f : UploadedFile)
    (p : Option String) :
    imageDefaultPrompt = "What are you seeing in this picture?" ∧
    pdfDefaultPrompt = "What are you seeing in this PDF?" ∧
    (strStartsWith f.mimetype "image/" = true →
      postImage b (some f) none p =
        respond (imageSwitch b (resolveProvider p) (base64Encode f.buffer)
          f.mimetype imageDefaultPrompt) ∧
      ∀ q : String, q ≠ "" →
        postImage b (some f) (some q) p =
          respond (imageSwitch b (resolveProvider p) (base64Encode f.buffer)
            f.mimetype q)) ∧
    (f.mimetype = "application/pdf" →
      postPdf b (some f) none p =
        respond (pdfSwitch b (resolveProvider p) (base64Encode f.buffer)
          pdfDefaultPrompt) ∧
      ∀ q : String, q ≠ "" →
        postPdf b (some f) (some q) p =
          respond (pdfSwitch b (resolveProvider p) (base64Encode f.buffer) q)) := by
  refine ⟨rfl, rfl, fun hmime => ⟨?_, fun q hq => ?_⟩, fun hmime => ⟨?_, fun q hq => ?_⟩⟩
  · simp [postImage, hmime, jsOrElse]
  · simp [postImage, hmime, jsOrElse, hq]
  · simp [postPdf, hmime, jsOrElse]
  · simp [postPdf, hmime, jsOrElse, hq]

/-- Witness for C8: a google image request with no question reaches the
backend with the default image prompt, visible in the echoed stream. -/
theorem default_prompt_substitution_witness :
    postImage demoBackends (some ⟨[137, 80, 78, 71], "image/png"⟩) none none =
      ⟨200, some "image seen, asked: What are you seeing in this picture?", none⟩ := by
  have h := ((default_prompt_substitution demoBackends ⟨[137, 80, 78, 71], "image/png"⟩
    none).2.2.1 (by decide)).1
  rw [h]
  rfl

/-- Claim C9: a fault thrown by the selected backend call, in any of the three
routes, surfaces as the generic 500 reply `Internal server error` — the same
fixed body for every cause string, so the cause is never exposed verbatim,
and the reply is distinct from every 400 validation reply. -/
theorem upstream_fault_generic_500 (b : Backends) (p q : Option String)
    (t cause : String) (f : UploadedFile) (ht : t ≠ "") :
    (textSwitch b (resolveProvider p) t = .error cause →
      postText b (some t) p = ⟨500, none, some "Internal server error"⟩) ∧
    (strStartsWith f.mimetype "image/" = true →
      imageSwitch b (resolveProvider p) (base64Encode f.buffer) f.mimetype
          (jsOrElse q imageDefaultPrompt) = .error cause →
      postImage b (some f) q p = ⟨500, none, some "Internal server error"⟩) ∧
    (f.mimetype = "application/pdf" →
      pdfSwitch b (resolveProvider p) (base64Encode f.buffer)
          (jsOrElse q pdfDefaultPrompt) = .error cause →
      postPdf b (some f) q p = ⟨500, none, some "Internal server error"⟩) ∧
    ∀ msg : String,
      (⟨500, none, some "Internal server error"⟩ : ApiResponse) ≠ ⟨400, none, some msg⟩ := by
  refine ⟨fun h => ?_, fun hmime h => ?_, fun hmime h => ?_, fun msg => by simp⟩
  · simp [postText, ht, h, respond]
  · simp [postImage, hmime, h, respond]
  · simp [postPdf, hmime, h, respond]

/-- Witness for C9: a backend world whose google call throws makes the text
route answer the fixed generic 500 body. -/
theorem upstream_fault_generic_500_witness :
    postText faultyBackends (some "hello") none =
      ⟨500, none, some "Internal server error"⟩ :=
  (upstream_fault_generic_500 faultyBackends none none "hello"
    "ECONNREFUSED api.google.invalid" ⟨[], "image/png"⟩ (by decide)).1 rfl

/-- Claim C10 (implicit): an empty-string question is falsy under `||`, so for
image and PDF dispatch it is treated exactly like an absent question — the
modality default is substituted and the whole route behaves identically. -/
theorem empty_question_equals_absent (b : Backends) (f : Option UploadedFile)
    (p : Option String) :
    jsOrElse (some "") imageDefaultPrompt = jsOrElse none imageDefaultPrompt ∧
    jsOrElse (some "") pdfDefaultPrompt = jsOrElse none pdfDefaultPrompt ∧
    postImage b f (some "") p = postImage b f none p ∧
    postPdf b f (some "") p = postPdf b f none p := by
  refine ⟨rfl, rfl, ?_, ?_⟩ <;> cases f <;> simp [postImage, postPdf, jsOrElse]

end KiShowcase
